import Mathlib

/-!
Verification of the IMX219 camera session handler (`camera_stream.py`).

The Python class `IMX219Camera` is shallowly embedded as a Lean structure
together with pure transition functions.  Interaction with the OpenCV /
GStreamer backend (`cv2.VideoCapture`) is modelled by passing the backend's
responses as explicit arguments:

* `openCamera` receives the environment `env : CaptureArg → Except PyErr Handle`
  describing what constructing a capture object does for a given argument
  (a GStreamer pipeline string or a V4L2 device path): it either raises an
  exception (`Except.error`) or yields a handle whose `isOpened` flag is the
  backend's report; it also receives `trial : Option Frame`, the result of the
  single test read performed inside `open` (`none` models a failed
  `cap.read()`, which in OpenCV returns `(False, None)`), and `t : ℚ`, the
  wall-clock value `time.time()` returns at the end of a successful open.
* `read` receives `r : Option Frame`, the backend's response to `cap.read()`.
* `get_fps` receives `now : ℚ`, the value of `time.time()` at the call.

Python floats are modelled by `ℚ`; frames (numpy arrays) are opaque.
-/

namespace CameraStream

/-- Opaque model of a captured frame (a numpy array in the source). -/
abbrev Frame := Nat

/-- Model of a Python exception value. -/
abbrev PyErr := String

/-- Model of a `cv2.VideoCapture` handle: whether the backend reports it as
opened, and the list of `(property, value)` pairs applied via `cap.set`. -/
structure Handle where
  isOpened : Bool
  props : List (Nat × Nat)
deriving DecidableEq

/-- OpenCV property id `cv2.CAP_PROP_FRAME_WIDTH`. -/
def CAP_PROP_FRAME_WIDTH : Nat := 3

/-- OpenCV property id `cv2.CAP_PROP_FRAME_HEIGHT`. -/
def CAP_PROP_FRAME_HEIGHT : Nat := 4

/-- OpenCV property id `cv2.CAP_PROP_FPS`. -/
def CAP_PROP_FPS : Nat := 5

/-- Model of `cap.set(prop, value)`: records the property assignment. -/
def Handle.set (h : Handle) (prop val : Nat) : Handle :=
  { h with props := h.props ++ [(prop, val)] }

/-- The argument passed to `cv2.VideoCapture`: either a GStreamer pipeline
description (with `cv2.CAP_GSTREAMER`) or a device path (with `cv2.CAP_V4L2`). -/
inductive CaptureArg where
  | gst (pipeline : String)
  | v4l2 (device : String)
deriving DecidableEq

/-- State of an `IMX219Camera` object (`camera_stream.py`, `__init__`). -/
structure IMX219Camera where
  device : String
  width : Nat
  height : Nat
  framerate : Nat
  use_gstreamer : Bool
  cap : Option Handle
  frame_count : Nat
  start_time : Option ℚ
deriving DecidableEq

namespace IMX219Camera

/-- Embedding of `IMX219Camera.__init__`: stores the configuration and initialises
`cap = None`, `frame_count = 0`, `start_time = None`. -/
def init (device : String) (width height framerate : Nat)
    (use_gstreamer : Bool) : IMX219Camera :=
  { device := device, width := width, height := height,
    framerate := framerate, use_gstreamer := use_gstreamer,
    cap := none, frame_count := 0, start_time := none }

/-- Embedding of `IMX219Camera._build_gstreamer_pipeline`: the pipeline description
string, built exactly as the f-string in the source. -/
def build_gstreamer_pipeline (c : IMX219Camera) : String :=
  "nvarguscamerasrc sensor-id=0 ! " ++
  "video/x-raw(memory:NVMM), " ++
  "width=" ++ toString c.width ++ ", height=" ++ toString c.height ++ ", " ++
  "format=NV12, framerate=" ++ toString c.framerate ++ "/1 ! " ++
  "nvvidconv ! " ++
  "video/x-raw, width=" ++ toString c.width ++ ", height=" ++
    toString c.height ++ ", format=BGRx ! " ++
  "videoconvert ! " ++
  "video/x-raw, format=BGR ! " ++
  "appsink max-buffers=1 drop=true sync=false"

/-- Embedding of `IMX219Camera.close`: `if self.cap is not None: self.cap.release();
self.cap = None`.  Releasing is dropping the handle. -/
def close (c : IMX219Camera) : IMX219Camera :=
  match c.cap with
  | some _ => { c with cap := none }
  | none => c

/-- Whether a call to `close` would invoke `cap.release()` (the guard
`self.cap is not None` in the source). -/
def closeWouldRelease (c : IMX219Camera) : Bool :=
  c.cap.isSome

/-- The construction step of `IMX219Camera.open`: with GStreamer,
`cv2.VideoCapture(pipeline, cv2.CAP_GSTREAMER)`; otherwise
`cv2.VideoCapture(device, cv2.CAP_V4L2)` followed by the three `cap.set`
property assignments for width, height and fps. -/
def constructCapture (env : CaptureArg → Except PyErr Handle)
    (c : IMX219Camera) : Except PyErr Handle :=
  if c.use_gstreamer then
    env (CaptureArg.gst c.build_gstreamer_pipeline)
  else
    (env (CaptureArg.v4l2 c.device)).map fun h =>
      ((h.set CAP_PROP_FRAME_WIDTH c.width).set
        CAP_PROP_FRAME_HEIGHT c.height).set CAP_PROP_FPS c.framerate

/-- Embedding of `IMX219Camera.open`.  The whole body sits inside
`try: ... except Exception: return False`, so a raising construction is
caught and turned into `(False, state unchanged)`.  Otherwise `self.cap`
is assigned the handle; if `not self.cap.isOpened()` the method returns
`False` (leaving `self.cap` assigned); otherwise a single trial frame is
read directly from the handle (not via `self.read`, so it is not counted):
on trial failure `self.close()` runs and `False` is returned, on success
`self.start_time = time.time()` and `True` is returned.  `frame_count` is
never touched. -/
def openCamera (env : CaptureArg → Except PyErr Handle)
    (trial : Option Frame) (t : ℚ) (c : IMX219Camera) :
    Bool × IMX219Camera :=
  match c.constructCapture env with
  | Except.error _ => (false, c)
  | Except.ok h =>
    let c1 := { c with cap := some h }
    if h.isOpened = false then
      (false, c1)
    else
      match trial with
      | none => (false, c1.close)
      | some _ => (true, { c1 with start_time := some t })

/-- Embedding of `IMX219Camera.read`: returns `(False, None)` when `self.cap is None`;
otherwise forwards the backend's `cap.read()` response `r` (`none` models
OpenCV's `(False, None)`), incrementing `frame_count` exactly on success. -/
def read (c : IMX219Camera) (r : Option Frame) :
    (Bool × Option Frame) × IMX219Camera :=
  match c.cap with
  | none => ((false, none), c)
  | some _ =>
    match r with
    | some f => ((true, some f), { c with frame_count := c.frame_count + 1 })
    | none => ((false, none), c)

/-- Embedding of `IMX219Camera.get_fps`: `0.0` when `start_time is None or
frame_count == 0`; otherwise `frame_count / elapsed` when `elapsed > 0`,
else `0.0`. -/
def get_fps (c : IMX219Camera) (now : ℚ) : ℚ :=
  match c.start_time with
  | none => 0
  | some t0 =>
    if c.frame_count = 0 then 0
    else
      let elapsed := now - t0
      if 0 < elapsed then (c.frame_count : ℚ) / elapsed else 0

/-- Embedding of `IMX219Camera.__enter__`: calls `self.open()` (result discarded) and
returns `self`. -/
def enter (env : CaptureArg → Except PyErr Handle)
    (trial : Option Frame) (t : ℚ) (c : IMX219Camera) : IMX219Camera :=
  (c.openCamera env trial t).2

/-- Embedding of `IMX219Camera.__exit__`: calls `self.close()` whatever the exception
information is. -/
def exitCamera (_excType _excVal _excTb : Option PyErr)
    (c : IMX219Camera) : IMX219Camera :=
  c.close

/-- Iterated successful reads: feed the frames of `fs` one by one through
`read`, keeping only the resulting state. -/
def readFrames (c : IMX219Camera) : List Frame → IMX219Camera
  | [] => c
  | f :: rest => (c.read (some f)).2.readFrames rest

end IMX219Camera

/-! Concrete environments used in witnesses and counterexamples. -/

/-- Environment in which construction always succeeds with an opened handle. -/
def envOK : CaptureArg → Except PyErr Handle :=
  fun _ => Except.ok { isOpened := true, props := [] }

/-- Environment in which construction yields a handle the backend reports
as not opened. -/
def envNotOpened : CaptureArg → Except PyErr Handle :=
  fun _ => Except.ok { isOpened := false, props := [] }

/-- Environment in which construction raises (e.g. a malformed pipeline
description). -/
def envRaises : CaptureArg → Except PyErr Handle :=
  fun _ => Except.error "malformed pipeline description"

/-- A freshly constructed camera with the source's default configuration. -/
def cam0 : IMX219Camera :=
  IMX219Camera.init "/dev/video0" 1280 720 30 true

end CameraStream

namespace CameraStream

/-! Helper lemmas shared by several claims. -/

/-- The function `read` never changes the handle field. -/
lemma IMX219Camera.read_cap (c : IMX219Camera) (r : Option Frame) :
    (c.read r).2.cap = c.cap := by
  cases hc : c.cap with
  | none => simp [IMX219Camera.read, hc]
  | some h => cases r <;> simp [IMX219Camera.read, hc]

/-- A successful backend pull on an open session increments `frame_count`
by one and changes nothing else. -/
lemma IMX219Camera.read_some_of_open (c : IMX219Camera) (h : Handle)
    (f : Frame) (hc : c.cap = some h) :
    c.read (some f) =
      ((true, some f), { c with frame_count := c.frame_count + 1 }) := by
  simp [IMX219Camera.read, hc]

/-- Iterated successful reads on an open session add exactly the number of
frames to `frame_count`. -/
lemma IMX219Camera.readFrames_count (fs : List Frame) :
    ∀ (c : IMX219Camera) (h : Handle), c.cap = some h →
      (c.readFrames fs).frame_count = c.frame_count + fs.length := by
  induction fs with
  | nil => intro c h _; simp [IMX219Camera.readFrames]
  | cons f rest ih =>
    intro c h hc
    rw [IMX219Camera.readFrames, c.read_some_of_open h f hc]
    rw [ih { c with frame_count := c.frame_count + 1 } h (by simp [hc])]
    simp; omega

/-- Equation for `open` when the construction raises: the exception is
caught and the state is left unchanged. -/
lemma IMX219Camera.openCamera_construct_error
    (env : CaptureArg → Except PyErr Handle) (trial : Option Frame) (t : ℚ)
    (c : IMX219Camera) (e : PyErr)
    (hc : c.constructCapture env = Except.error e) :
    c.openCamera env trial t = (false, c) := by
  unfold IMX219Camera.openCamera
  rw [hc]

/-- Equation for `open` when the handle reports not opened: `False` is
returned and the (unopened) handle stays assigned to `cap`. -/
lemma IMX219Camera.openCamera_not_opened
    (env : CaptureArg → Except PyErr Handle) (trial : Option Frame) (t : ℚ)
    (c : IMX219Camera) (h : Handle)
    (hc : c.constructCapture env = Except.ok h)
    (ho : h.isOpened = false) :
    c.openCamera env trial t = (false, { c with cap := some h }) := by
  unfold IMX219Camera.openCamera
  rw [hc]
  simp [ho]

/-- Equation for `open` when the handle opens but the trial read fails:
`self.close()` runs, so the handle is dropped before `False` is returned. -/
lemma IMX219Camera.openCamera_trial_failed
    (env : CaptureArg → Except PyErr Handle) (t : ℚ)
    (c : IMX219Camera) (h : Handle)
    (hc : c.constructCapture env = Except.ok h)
    (ho : h.isOpened = true) :
    c.openCamera env none t = (false, { c with cap := none }) := by
  unfold IMX219Camera.openCamera
  rw [hc]
  simp [ho, IMX219Camera.close]

/-- Equation for a fully successful `open`: the handle is stored,
`start_time` is set to the clock value, and `frame_count` is untouched. -/
lemma IMX219Camera.openCamera_success
    (env : CaptureArg → Except PyErr Handle) (f : Frame) (t : ℚ)
    (c : IMX219Camera) (h : Handle)
    (hc : c.constructCapture env = Except.ok h)
    (ho : h.isOpened = true) :
    c.openCamera env (some f) t =
      (true, { c with cap := some h, start_time := some t }) := by
  unfold IMX219Camera.openCamera
  rw [hc]
  simp [ho]

/-- Anatomy of a successful `open`: the final state is the old state with
`cap` set to some handle and `start_time` set to the clock value (in
particular `frame_count` is untouched). -/
lemma IMX219Camera.openCamera_true_state
    (env : CaptureArg → Except PyErr Handle) (trial : Option Frame) (t : ℚ)
    (c : IMX219Camera) (h1 : (c.openCamera env trial t).1 = true) :
    ∃ h : Handle,
      (c.openCamera env trial t).2 =
        { c with cap := some h, start_time := some t } := by
  cases hc : c.constructCapture env with
  | error e =>
    rw [c.openCamera_construct_error env trial t e hc] at h1
    simp at h1
  | ok h =>
    cases ho : h.isOpened with
    | false =>
      rw [c.openCamera_not_opened env trial t h hc ho] at h1
      simp at h1
    | true =>
      cases trial with
      | none =>
        rw [c.openCamera_trial_failed env t h hc ho] at h1
        simp at h1
      | some f =>
        rw [c.openCamera_success env f t h hc ho]
        exact ⟨h, rfl⟩

end CameraStream

namespace CameraStream

/-! Claim theorems. -/

/-- C1 (counterexample): the claim "frameCount is zero immediately after
every successful Open" fails.  Concretely: construct the default camera,
open it successfully, read one frame, close, and open again successfully —
the second `open` returns `true` yet `frame_count` is `1`, not `0`:
`open` never resets the counter. -/
theorem frame_count_carries_over_reopen :
    (((((cam0.openCamera envOK (some 0) 0).2.read (some 1)).2.close).openCamera
        envOK (some 2) 5).1 = true) ∧
    (((((cam0.openCamera envOK (some 0) 0).2.read (some 1)).2.close).openCamera
        envOK (some 2) 5).2.frame_count = 1) ∧
    ¬ (((((cam0.openCamera envOK (some 0) 0).2.read (some 1)).2.close).openCamera
        envOK (some 2) 5).2.frame_count = 0) := by
  exact ⟨by decide, by decide, by decide⟩

/-- C1 (amended): a successful `Open` leaves `frame_count` exactly as it
was before the call (the trial frame is not counted, but the counter is
not reset either, so frames read during a previous open carry over), and
after `N` subsequent successful `Read` calls `frame_count` equals its
pre-`Open` value plus `N` — which is exactly `N` for a freshly constructed
session. -/
theorem open_preserves_frame_count
    (env : CaptureArg → Except PyErr Handle) (trial : Option Frame) (t : ℚ)
    (c : IMX219Camera) (hopen : (c.openCamera env trial t).1 = true) :
    (c.openCamera env trial t).2.frame_count = c.frame_count ∧
    ∀ fs : List Frame,
      ((c.openCamera env trial t).2.readFrames fs).frame_count =
        c.frame_count + fs.length := by
  obtain ⟨h, hstate⟩ := c.openCamera_true_state env trial t hopen
  rw [hstate]
  refine ⟨rfl, fun fs => ?_⟩
  rw [IMX219Camera.readFrames_count fs _ h (by simp)]

/-- C1 (witness): a fresh default camera, opened successfully in the
all-succeeding environment and fed three successful reads, has
`frame_count = 0 + 3`. -/
theorem open_preserves_frame_count_witness :
    ((cam0.openCamera envOK (some 0) 0).1 = true) ∧
    ((cam0.openCamera envOK (some 0) 0).2.readFrames [4, 5, 6]).frame_count =
      cam0.frame_count + 3 :=
  ⟨by decide,
    (open_preserves_frame_count envOK (some 0) 0 cam0 (by decide)).2 [4, 5, 6]⟩

/-- C2 (counterexample): the claim "when Open returns false because the
handle could not be opened, the handle field is absent" fails.  In the
environment whose constructed handle reports not opened, `open` on the
default camera returns `false` but leaves `cap` set to the unopened
handle, violating the handle-iff-open invariant. -/
theorem open_false_leaves_handle_set :
    ((cam0.openCamera envNotOpened (some 0) 0).1 = false) ∧
    ¬ ((cam0.openCamera envNotOpened (some 0) 0).2.cap = none) := by
  exact ⟨by decide, by decide⟩

/-- C2 (amended): whenever the backend constructs a handle that reports
not opened, `Open` returns `false` but the session's `cap` field retains
that unopened handle (it is not reset to `None`); only the `cap` field
changes. -/
theorem open_not_opened_retains_handle
    (env : CaptureArg → Except PyErr Handle) (trial : Option Frame) (t : ℚ)
    (c : IMX219Camera) (h : Handle)
    (hc : c.constructCapture env = Except.ok h)
    (ho : h.isOpened = false) :
    c.openCamera env trial t = (false, { c with cap := some h }) :=
  c.openCamera_not_opened env trial t h hc ho

/-- C2 (witness): in the not-opened environment, `open` on the default
camera returns `false` with the unopened handle stored in `cap`. -/
theorem open_not_opened_retains_handle_witness :
    cam0.openCamera envNotOpened (some 0) 0 =
      (false, { cam0 with cap := some { isOpened := false, props := [] } }) :=
  open_not_opened_retains_handle envNotOpened (some 0) 0 cam0
    { isOpened := false, props := [] } rfl rfl

/-- C3: if the handle opens but the trial frame read during `Open` fails,
`Open` returns `false`, the handle has been released and `cap` is `None`
in the returned state (only `cap` differs from the pre-call state), a
subsequent `Close` is a no-op on that state, and it would not invoke a
second `release`. -/
theorem open_trial_failure_releases
    (env : CaptureArg → Except PyErr Handle) (t : ℚ)
    (c : IMX219Camera) (h : Handle)
    (hc : c.constructCapture env = Except.ok h)
    (ho : h.isOpened = true) :
    c.openCamera env none t = (false, { c with cap := none }) ∧
    (c.openCamera env none t).2.close = (c.openCamera env none t).2 ∧
    (c.openCamera env none t).2.closeWouldRelease = false := by
  have he := c.openCamera_trial_failed env t h hc ho
  refine ⟨he, ?_, ?_⟩
  · rw [he]; rfl
  · rw [he]; rfl

/-- C3 (witness): with an all-succeeding construction but a failing trial
read, `open` on the default camera returns `false` with the handle gone,
and closing again changes nothing. -/
theorem open_trial_failure_releases_witness :
    cam0.openCamera envOK none 0 = (false, { cam0 with cap := none }) ∧
    (cam0.openCamera envOK none 0).2.close = (cam0.openCamera envOK none 0).2 ∧
    (cam0.openCamera envOK none 0).2.closeWouldRelease = false :=
  open_trial_failure_releases envOK 0 cam0
    { isOpened := true, props := [] } rfl rfl

end CameraStream

namespace CameraStream

/-- The function `close` always yields the same state with the handle dropped
(whichever branch of the guard runs). -/
lemma IMX219Camera.close_eq (c : IMX219Camera) :
    c.close = { c with cap := none } := by
  obtain ⟨d, w, h, fr, g, cp, fc, st⟩ := c
  cases cp <;> rfl

/-- C4: on an open session (`cap` holds a handle), a successful backend
pull makes `Read` return `(true, frame)` and increment `frame_count` by
exactly one, changing no other field; a failed backend pull makes `Read`
return `(false, none)` and leave the whole state unchanged (no retry). -/
theorem read_open_session
    (c : IMX219Camera) (h : Handle) (f : Frame) (hc : c.cap = some h) :
    c.read (some f) =
      ((true, some f), { c with frame_count := c.frame_count + 1 }) ∧
    c.read none = ((false, none), c) := by
  constructor
  · exact c.read_some_of_open h f hc
  · simp [IMX219Camera.read, hc]

/-- An opened handle used in concrete witnesses. -/
def okHandle : Handle := { isOpened := true, props := [] }

/-- A concrete open session that has already counted two frames. -/
def camOpen2 : IMX219Camera :=
  { cam0 with cap := some okHandle, frame_count := 2 }

/-- C4 (witness): on a concrete open session with two frames already
counted, a successful pull yields frame 9 and count 3; a failed pull
yields `(false, none)` with the state untouched. -/
theorem read_open_session_witness :
    camOpen2.read (some 9) =
      ((true, some 9), { camOpen2 with frame_count := 3 }) ∧
    camOpen2.read none = ((false, none), camOpen2) :=
  read_open_session camOpen2 okHandle 9 rfl

/-- C5: `Read` on a never-opened session (fresh from `__init__`) and on a
just-closed session returns `(false, none)` with the state unchanged, for
every backend response — no exception is modelled because the embedded
`read` is total. -/
theorem read_not_open_no_effect
    (r : Option Frame) (device : String) (w h fr : Nat) (g : Bool)
    (c : IMX219Camera) :
    (IMX219Camera.init device w h fr g).read r =
      ((false, none), IMX219Camera.init device w h fr g) ∧
    c.close.read r = ((false, none), c.close) := by
  constructor
  · simp [IMX219Camera.read, IMX219Camera.init]
  · have hc : c.close.cap = none := by rw [IMX219Camera.close_eq]
    simp [IMX219Camera.read, hc]

/-- C6: `get_fps` returns `0` when the session was never opened
(`start_time = none`) or when `frame_count = 0`; otherwise, for a call at
wall-clock `now` strictly after the recorded `start_time`, it returns
`frame_count / (now - start_time)` — the running average since the
successful open. -/
theorem get_fps_formula (c : IMX219Camera) (now t0 : ℚ) :
    (c.start_time = none → c.get_fps now = 0) ∧
    (c.frame_count = 0 → c.get_fps now = 0) ∧
    (c.start_time = some t0 → c.frame_count ≠ 0 → 0 < now - t0 →
      c.get_fps now = (c.frame_count : ℚ) / (now - t0)) := by
  refine ⟨fun hs => ?_, fun hf => ?_, fun hs hf he => ?_⟩
  · simp [IMX219Camera.get_fps, hs]
  · unfold IMX219Camera.get_fps
    cases c.start_time <;> simp [hf]
  · simp [IMX219Camera.get_fps, hs, hf, he]

/-- C6 (witness): a session opened at time 1 with 2 frames read reports
`2 / (3 - 1) = 1` frame per second at time 3. -/
theorem get_fps_formula_witness :
    ({ cam0 with start_time := some 1, frame_count := 2 } :
      IMX219Camera).get_fps 3 = 1 := by
  have h :=
    (get_fps_formula { cam0 with start_time := some 1, frame_count := 2 }
      3 1).2.2 rfl (by decide) (by norm_num)
  rw [h]
  norm_num

/-- C7: `Close` always leaves `cap` absent and every other field
untouched, it is idempotent (`close ∘ close = close`), and on a session
whose handle is already absent (never opened or already closed) it is a
no-op returning the state unchanged — never an error, since the embedded
`close` is total. -/
theorem close_idempotent (c : IMX219Camera) :
    c.close.cap = none ∧
    c.close.close = c.close ∧
    c.close.frame_count = c.frame_count ∧
    c.close.start_time = c.start_time ∧
    (c.cap = none → c.close = c) := by
  obtain ⟨d, w, h, fr, g, cp, fc, st⟩ := c
  cases cp with
  | none => exact ⟨rfl, rfl, rfl, rfl, fun _ => rfl⟩
  | some hd =>
    refine ⟨rfl, rfl, rfl, rfl, fun hn => ?_⟩
    exact absurd hn (by simp)

/-- C7 (witness): closing the never-opened default camera twice changes
nothing at all. -/
theorem close_idempotent_witness : cam0.close = cam0 :=
  (close_idempotent cam0).2.2.2.2 rfl

end CameraStream

namespace CameraStream

/-- C8 (counterexample): the claim "unexpected lower-level faults escape
Open uncaught" fails.  With a backend whose construction raises (e.g. a
malformed pipeline description), `open` on the default camera returns
`(false, unchanged state)`: the blanket `except Exception` converts the
fault into a `false` return instead of letting it escape. -/
theorem backend_exception_converted_to_false :
    cam0.openCamera envRaises (some 0) 0 = (false, cam0) :=
  cam0.openCamera_construct_error envRaises (some 0) 0
    "malformed pipeline description" rfl

/-- C8 (amended): `Open` reports expected failure modes only via its
boolean result, and unexpected lower-level faults raised by the backend
during construction are likewise caught by the blanket exception handler
and converted into a `false` return with the session state unchanged —
nothing escapes `Open`. -/
theorem open_catches_backend_exceptions
    (env : CaptureArg → Except PyErr Handle) (trial : Option Frame) (t : ℚ)
    (c : IMX219Camera) (e : PyErr)
    (hc : c.constructCapture env = Except.error e) :
    c.openCamera env trial t = (false, c) :=
  c.openCamera_construct_error env trial t e hc

/-- C8 (witness): the raising environment drives the default camera's
`open` into the exception handler, which returns `false` and leaves the
state untouched. -/
theorem open_catches_backend_exceptions_witness :
    cam0.openCamera envRaises none 7 = (false, cam0) :=
  open_catches_backend_exceptions envRaises none 7 cam0
    "malformed pipeline description" rfl

/-- C9: for every configuration, the GStreamer pipeline description string
starts with the sensor source stage, contains the hardware colour-space /
memory conversion stage `nvvidconv`, carries the requested geometry,
framerate and output format, and terminates in an `appsink` configured
with `max-buffers=1 drop=true sync=false`. -/
theorem pipeline_structure (c : IMX219Camera) :
    (∃ rest, c.build_gstreamer_pipeline =
      "nvarguscamerasrc sensor-id=0 ! " ++ rest) ∧
    (∃ a b, c.build_gstreamer_pipeline = a ++ "nvvidconv ! " ++ b) ∧
    (∃ a b, c.build_gstreamer_pipeline =
      a ++ ("width=" ++ toString c.width ++ ", height=" ++
        toString c.height) ++ b) ∧
    (∃ a b, c.build_gstreamer_pipeline =
      a ++ ("format=NV12, framerate=" ++ toString c.framerate ++
        "/1 ! ") ++ b) ∧
    (∃ a b, c.build_gstreamer_pipeline =
      a ++ "video/x-raw, format=BGR ! " ++ b) ∧
    (∃ a, c.build_gstreamer_pipeline =
      a ++ "appsink max-buffers=1 drop=true sync=false") := by
  unfold IMX219Camera.build_gstreamer_pipeline
  refine ⟨⟨"video/x-raw(memory:NVMM), " ++ "width=" ++ toString c.width ++
      ", height=" ++ toString c.height ++ ", " ++
      "format=NV12, framerate=" ++ toString c.framerate ++ "/1 ! " ++
      "nvvidconv ! " ++ "video/x-raw, width=" ++ toString c.width ++
      ", height=" ++ toString c.height ++ ", format=BGRx ! " ++
      "videoconvert ! " ++ "video/x-raw, format=BGR ! " ++
      "appsink max-buffers=1 drop=true sync=false", ?_⟩,
    ⟨"nvarguscamerasrc sensor-id=0 ! " ++ "video/x-raw(memory:NVMM), " ++
      "width=" ++ toString c.width ++ ", height=" ++ toString c.height ++
      ", " ++ "format=NV12, framerate=" ++ toString c.framerate ++ "/1 ! ",
      "video/x-raw, width=" ++ toString c.width ++ ", height=" ++
      toString c.height ++ ", format=BGRx ! " ++ "videoconvert ! " ++
      "video/x-raw, format=BGR ! " ++
      "appsink max-buffers=1 drop=true sync=false", ?_⟩,
    ⟨"nvarguscamerasrc sensor-id=0 ! " ++ "video/x-raw(memory:NVMM), ",
      ", " ++ "format=NV12, framerate=" ++ toString c.framerate ++ "/1 ! " ++
      "nvvidconv ! " ++ "video/x-raw, width=" ++ toString c.width ++
      ", height=" ++ toString c.height ++ ", format=BGRx ! " ++
      "videoconvert ! " ++ "video/x-raw, format=BGR ! " ++
      "appsink max-buffers=1 drop=true sync=false", ?_⟩,
    ⟨"nvarguscamerasrc sensor-id=0 ! " ++ "video/x-raw(memory:NVMM), " ++
      "width=" ++ toString c.width ++ ", height=" ++ toString c.height ++
      ", ",
      "nvvidconv ! " ++ "video/x-raw, width=" ++ toString c.width ++
      ", height=" ++ toString c.height ++ ", format=BGRx ! " ++
      "videoconvert ! " ++ "video/x-raw, format=BGR ! " ++
      "appsink max-buffers=1 drop=true sync=false", ?_⟩,
    ⟨"nvarguscamerasrc sensor-id=0 ! " ++ "video/x-raw(memory:NVMM), " ++
      "width=" ++ toString c.width ++ ", height=" ++ toString c.height ++
      ", " ++ "format=NV12, framerate=" ++ toString c.framerate ++ "/1 ! " ++
      "nvvidconv ! " ++ "video/x-raw, width=" ++ toString c.width ++
      ", height=" ++ toString c.height ++ ", format=BGRx ! " ++
      "videoconvert ! ",
      "appsink max-buffers=1 drop=true sync=false", ?_⟩,
    ⟨"nvarguscamerasrc sensor-id=0 ! " ++ "video/x-raw(memory:NVMM), " ++
      "width=" ++ toString c.width ++ ", height=" ++ toString c.height ++
      ", " ++ "format=NV12, framerate=" ++ toString c.framerate ++ "/1 ! " ++
      "nvvidconv ! " ++ "video/x-raw, width=" ++ toString c.width ++
      ", height=" ++ toString c.height ++ ", format=BGRx ! " ++
      "videoconvert ! " ++ "video/x-raw, format=BGR ! ", ?_⟩⟩ <;>
  simp only [String.append_assoc]

/-- C10: entering the session as a context manager produces exactly the
state `Open` leaves behind — the boolean result of `Open` is discarded, so
entry never signals an open failure — and exiting calls `Close` whatever
the exception information is. -/
theorem context_manager_enter_exit
    (env : CaptureArg → Except PyErr Handle) (trial : Option Frame) (t : ℚ)
    (c : IMX219Camera) (e1 e2 e3 : Option PyErr) :
    (∃ b : Bool, c.openCamera env trial t = (b, c.enter env trial t)) ∧
    IMX219Camera.exitCamera e1 e2 e3 c = c.close :=
  ⟨⟨(c.openCamera env trial t).1, rfl⟩, rfl⟩

end CameraStream
